import Mathlib

/-!
Verification of the Isentropic Nozzle Performance Sizing & Cross-Verification
Engine of the gastown-rocket-engine repository.

The primary implementation is `design/scripts/thruster_performance_sizing.py`
(DES-001); the independent reimplementation is
`verification/scripts/VER-001_independent_simulation.py` (VER-001).
Python floats are modelled as real numbers; `scipy.optimize.brentq(f, a, b)`
is modelled by its contract: it raises `ValueError` when `f(a) * f(b) > 0`
(endpoints of the bracket with the same sign) and otherwise returns a root of
`f` inside `[a, b]`.
-/

namespace Gastown

noncomputable section

open Real Set

/-! ## Physical constants (identical numeric values appear in both scripts) -/

/-- `G0 = 9.80665` — standard gravitational acceleration (both scripts). -/
def G0 : ℝ := 9.80665

/-- `R_UNIVERSAL = 8314.46` J/(kmol·K) (design script); the verification
script's `R_universal` has the same value. -/
def R_UNIVERSAL : ℝ := 8314.46

/-- Molecular weight of ammonia, g/mol (both scripts). -/
def M_NH3 : ℝ := 17.031

/-- Molecular weight of nitrogen, g/mol (both scripts). -/
def M_N2 : ℝ := 28.014

/-- Molecular weight of hydrogen, g/mol (both scripts). -/
def M_H2 : ℝ := 2.016

/-- Design-script constant `ALPHA = 0.5` (ammonia dissociation degree). -/
def ALPHA : ℝ := 0.5

/-- Design-script constant `GAMMA = 1.28` (fixed specific heat ratio). -/
def GAMMA : ℝ := 1.28

/-! ## Gas Property Model

Primary: `compute_gas_properties` (thruster_performance_sizing.py, lines
93–124).  Secondary: `compute_mean_molecular_weight`
(VER-001_independent_simulation.py, lines 53–75). -/

/-- Moles of NH3 per mole of N2H4: `(4/3) * (1 - alpha)` (both scripts). -/
def n_NH3 (alpha : ℝ) : ℝ := (4/3) * (1 - alpha)

/-- Moles of N2 per mole of N2H4: `(1/3) + (2/3) * alpha` (both scripts). -/
def n_N2 (alpha : ℝ) : ℝ := (1/3) + (2/3) * alpha

/-- Moles of H2 per mole of N2H4: `2 * alpha` (both scripts). -/
def n_H2 (alpha : ℝ) : ℝ := 2 * alpha

/-- Total moles per mole of N2H4: `(4/3) + (2/3) * alpha` (both scripts). -/
def n_total (alpha : ℝ) : ℝ := (4/3) + (2/3) * alpha

/-- Mean molecular weight in g/mol, the value `M_bar_g` computed inside the
design script's `compute_gas_properties`. -/
def M_bar_g (alpha : ℝ) : ℝ :=
  (M_NH3 * n_NH3 alpha + M_N2 * n_N2 alpha + M_H2 * n_H2 alpha) / n_total alpha

/-- Design script `compute_gas_properties(alpha)`: returns the pair
`(M_bar [kg/mol], R_specific [J/(kg K)])`.  The function body performs no
domain validation; the only way it can fail at run time is the division by
`n_total alpha` when that total is exactly zero (Python `ZeroDivisionError`),
which we model with the `Except` error branch. -/
def compute_gas_properties (alpha : ℝ) : Except String (ℝ × ℝ) :=
  if n_total alpha = 0 then .error "ZeroDivisionError"
  else
    .ok (M_bar_g alpha / 1000, R_UNIVERSAL / (M_bar_g alpha / 1000))

/-- VER-001 `compute_mean_molecular_weight(alpha)`: mean molecular weight in
g/mol, computed from the same mole numbers and molecular weights. -/
def compute_mean_molecular_weight (alpha : ℝ) : ℝ :=
  (M_NH3 * ((4/3) * (1 - alpha)) + M_N2 * ((1/3) + (2/3) * alpha)
      + M_H2 * (2 * alpha)) / ((4/3) + (2/3) * alpha)

/-- VER-001 specific gas constant, as computed inside
`compute_nozzle_flow_properties` (line 149) and
`compute_characteristic_velocity` (line 183):
`R_specific = (R_universal / M_bar) * 1000` with `M_bar` in g/mol. -/
def ver_R_specific (M_bar : ℝ) : ℝ := (R_UNIVERSAL / M_bar) * 1000

/-- VER-001 `compute_specific_heat_ratio(alpha)` (lines 78–94):
`gamma = 1.27 - 0.05 * alpha`. -/
def compute_specific_heat_ratio (alpha : ℝ) : ℝ := 1.27 - 0.05 * alpha

/-! ## Requirements Compliance Evaluator

Primary: the compliance loop in the design script's `main` (lines 310–342).
Secondary: the REQ-001/REQ-002 checks in VER-001's
`verify_thrust_Isp_performance` (lines 428–461). -/

/-- Design script, range-type requirement:
`lower_margin = (computed - threshold_min) / threshold_min * 100`. -/
def range_lower_margin (lo c : ℝ) : ℝ := (c - lo) / lo * 100

/-- Design script, range-type requirement:
`upper_margin = (threshold_max - computed) / threshold_max * 100`. -/
def range_upper_margin (hi c : ℝ) : ℝ := (hi - c) / hi * 100

/-- Design script, range-type requirement:
`min_margin = min(lower_margin, upper_margin)`. -/
def range_min_margin (lo hi c : ℝ) : ℝ :=
  min (range_lower_margin lo c) (range_upper_margin hi c)

/-- Design script, range-type requirement:
`in_range = threshold_min <= computed <= threshold_max`;
the reported status is `"PASS"` exactly when this holds. -/
def range_pass (lo hi c : ℝ) : Prop := lo ≤ c ∧ c ≤ hi

/-- Design script, minimum-type requirement:
`margin = (computed - threshold_min) / threshold_min * 100`. -/
def minimum_margin (t c : ℝ) : ℝ := (c - t) / t * 100

/-- Design script, minimum-type requirement: status is `"PASS"` exactly when
`computed >= threshold_min`. -/
def minimum_pass (t c : ℝ) : Prop := t ≤ c

/-- VER-001 REQ-001 band check (lines 432–440): `margin_percent` is
`(F_nominal - 1.0) / 1.0 * 100` when the computed thrust lies in the band and
Python `None` (here `Option.none`) otherwise. -/
def ver001_req001_margin (lo hi F : ℝ) : Option ℝ :=
  if lo ≤ F ∧ F ≤ hi then some ((F - 1.0) / 1.0 * 100) else none

/-- VER-001 REQ-001 band check: status is `"PASS"` exactly when
`threshold_min <= F_nominal <= threshold_max`. -/
def ver001_req001_pass (lo hi F : ℝ) : Prop := lo ≤ F ∧ F ≤ hi

/-- VER-001 REQ-002 minimum check (lines 454–461):
`margin_percent = (Isp_nominal - req_002_isp_min) / req_002_isp_min * 100`. -/
def ver001_req002_margin (t c : ℝ) : ℝ := (c - t) / t * 100

/-! ## Cross-Verification Harness

VER-001 `verify_thrust_Isp_performance`, STEP 4 (lines 486–517) and the
`comparison_with_agent2` output record (lines 559–566).  The code compares
exactly two scalar fields — thrust and specific impulse — between Agent 2's
persisted DES-001 record (the primary) and this verification run (the
secondary). -/

/-- VER-001 percentage delta (lines 499–500):
`abs(secondary - primary) / primary * 100`.  Note the absolute value: the
code reports an unsigned delta. -/
def agent_delta (primary secondary : ℝ) : ℝ := |secondary - primary| / primary * 100

/-- VER-001 tolerance flag (lines 506, 513): `delta > 5.0`. -/
def delta_flag (d : ℝ) : Prop := d > 5.0

/-- The `comparison_with_agent2` output record (VER-001 lines 559–566): both
thrust values, both Isp values, and the two percentage deltas, reported side
by side. -/
structure ComparisonRecord where
  agent2_thrust_N : ℝ
  agent3_thrust_N : ℝ
  thrust_delta_percent : ℝ
  agent2_Isp_s : ℝ
  agent3_Isp_s : ℝ
  Isp_delta_percent : ℝ

/-- Construction of the `comparison_with_agent2` record from the primary
(Agent 2) and secondary (Agent 3) thrust and Isp values, exactly as VER-001
builds it: the input values are stored unmodified next to the deltas. -/
def comparison_with_agent2 (a2F a3F a2I a3I : ℝ) : ComparisonRecord :=
  ⟨a2F, a3F, agent_delta a2F a3F, a2I, a3I, agent_delta a2I a3I⟩

/-! ## Helper lemmas for the gas property model -/

lemma n_total_pos {alpha : ℝ} (h : 0 ≤ alpha) : 0 < n_total alpha := by
  unfold n_total; linarith

lemma n_total_eq_zero_iff (alpha : ℝ) : n_total alpha = 0 ↔ alpha = -2 := by
  unfold n_total; constructor <;> intro h <;> linarith

lemma M_bar_g_pos {alpha : ℝ} (h0 : 0 ≤ alpha) (_h1 : alpha ≤ 1) :
    0 < M_bar_g alpha := by
  unfold M_bar_g M_NH3 M_N2 M_H2 n_NH3 n_N2 n_H2
  apply div_pos _ (n_total_pos h0)
  nlinarith

lemma compute_gas_properties_ok {alpha : ℝ} (h0 : 0 ≤ alpha) (_h1 : alpha ≤ 1) :
    compute_gas_properties alpha =
      .ok (M_bar_g alpha / 1000, R_UNIVERSAL / (M_bar_g alpha / 1000)) := by
  unfold compute_gas_properties
  rw [if_neg (ne_of_gt (n_total_pos h0))]

lemma R_UNIVERSAL_pos : (0:ℝ) < R_UNIVERSAL := by unfold R_UNIVERSAL; norm_num

/-! ## Characteristic velocity, area–Mach relation, isentropic expansion -/

/-- Design script `compute_c_star(gamma, R_specific, T_c)` (lines 126–145):
`c* = sqrt(gamma * R * T_c) / (gamma * (2/(gamma+1)) ** (((gamma+1)/(gamma-1))/2))`.
VER-001's `compute_characteristic_velocity` computes the same expression with
`sqrt(x ** e)` in place of `x ** (e/2)`. -/
def compute_c_star (gamma R_specific T_c : ℝ) : ℝ :=
  Real.sqrt (gamma * R_specific * T_c) /
    (gamma * (2 / (gamma + 1)) ^ (((gamma + 1) / (gamma - 1)) / 2))

/-- The left-hand side of the area–Mach relation, i.e. the area ratio that a
given exit Mach number `M` produces:
`(1/M) * ((2/(gamma+1)) * (1 + (gamma-1)/2 * M^2)) ** ((gamma+1)/(2*(gamma-1)))`.
This is the `term ** exponent / Me` expression inside the design script's
`area_ratio_eq` (lines 164–167) and VER-001's `area_ratio_residual`
(lines 115–122), before the target area ratio is subtracted. -/
def areaRatioFn (gamma M : ℝ) : ℝ :=
  (1 / M) * ((2 / (gamma + 1)) * (1 + (gamma - 1) / 2 * M ^ 2))
      ^ ((gamma + 1) / (2 * (gamma - 1)))

/-- Design script residual `area_ratio_eq(Me)` (lines 164–167), handed to
`brentq` over the bracket `[1.01, 10.0]`. -/
def area_ratio_eq (ar gamma M : ℝ) : ℝ := areaRatioFn gamma M - ar

/-- VER-001 residual `area_ratio_residual(Me)` (lines 115–122): returns the
sentinel `1e6` for `Me <= 1.0` and the area-ratio residual otherwise; handed
to `brentq` over the bracket `[1.01, 50.0]`. -/
def area_ratio_residual (ar gamma M : ℝ) : ℝ :=
  if M ≤ 1 then 1000000 else areaRatioFn gamma M - ar

/-- Model of `brentq(area_ratio_eq, 1.01, 10.0)` raising `ValueError` in the
design script's `exit_mach_from_area_ratio`: scipy's `brentq` raises exactly
when the residual has the same (nonzero) sign at both bracket endpoints. -/
def exit_mach_raises (ar gamma : ℝ) : Prop :=
  0 < area_ratio_eq ar gamma 1.01 * area_ratio_eq ar gamma 10

/-- Model of `brentq(area_ratio_residual, 1.01, 50.0)` raising `ValueError`
in VER-001's `solve_exit_mach_number` (line 125). -/
def solve_exit_mach_raises (ar gamma : ℝ) : Prop :=
  0 < area_ratio_residual ar gamma 1.01 * area_ratio_residual ar gamma 50

/-- Postcondition of the design script's
`Me_exit = brentq(area_ratio_eq, 1.01, 10.0)` (line 170): when `brentq`
returns, the returned value is a root of the residual lying inside the
bracket `[1.01, 10.0]`. -/
def isExitMachRoot (ar gamma M : ℝ) : Prop :=
  1.01 ≤ M ∧ M ≤ 10 ∧ area_ratio_eq ar gamma M = 0

/-- Postcondition of VER-001's `Me = brentq(area_ratio_residual, 1.01, 50.0)`
(line 125): a root of the guarded residual inside `[1.01, 50.0]`. -/
def isExitMachRootVer (ar gamma M : ℝ) : Prop :=
  1.01 ≤ M ∧ M ≤ 50 ∧ area_ratio_residual ar gamma M = 0

/-- The stagnation-to-static temperature factor `1 + (gamma-1)/2 * Me**2`
(`temp_factor` in the design script, line 193). -/
def temp_factor (gamma M : ℝ) : ℝ := 1 + (gamma - 1) / 2 * M ^ 2

/-- Design script `compute_isentropic_expansion(M_e, P_c, gamma, R_specific, T_c)`
(lines 173–197): returns `(P_e, T_e, V_e)` with
`P_e = P_c * temp_factor ** (-gamma/(gamma-1))`, `T_e = T_c / temp_factor`,
`V_e = M_e * sqrt(gamma * R_specific * T_e)`.  VER-001's
`compute_nozzle_flow_properties` (lines 154–157) computes the same three
expressions. -/
def compute_isentropic_expansion (M_e P_c gamma R_specific T_c : ℝ) :
    ℝ × ℝ × ℝ :=
  (P_c * temp_factor gamma M_e ^ (-gamma / (gamma - 1)),
   T_c / temp_factor gamma M_e,
   M_e * Real.sqrt (gamma * R_specific * (T_c / temp_factor gamma M_e)))

/-- The full sizing chain of the design script's `main`, steps 3–8 (lines
215–264), with the module-level Design Constants generalized to parameters:
from the solved exit Mach number `M_e` it computes
`c_star`, `(P_e, T_e, V_e)`, `V_e_actual = V_e * eta`,
`At = F_target / (P_c * V_e_actual / c_star + P_e * eps)`,
`mdot = P_c * At / c_star`, `Ae = eps * At`, and finally the recomputed
thrust `mdot * V_e_actual + P_e * Ae`. -/
def recomputed_thrust (gamma R_specific T_c P_c eps eta F_target M_e : ℝ) : ℝ :=
  let c_star := compute_c_star gamma R_specific T_c
  let P_e := (compute_isentropic_expansion M_e P_c gamma R_specific T_c).1
  let V_e := (compute_isentropic_expansion M_e P_c gamma R_specific T_c).2.2
  let V_e_actual := V_e * eta
  let At := F_target / (P_c * V_e_actual / c_star + P_e * eps)
  let mdot := P_c * At / c_star
  let Ae := eps * At
  mdot * V_e_actual + P_e * Ae

lemma gas_R_specific_pos {alpha : ℝ} (h0 : 0 ≤ alpha) (h1 : alpha ≤ 1) :
    0 < R_UNIVERSAL / (M_bar_g alpha / 1000) := by
  apply div_pos R_UNIVERSAL_pos
  have := M_bar_g_pos h0 h1
  linarith

/-! ## Helper lemmas for the area–Mach relation -/

/-- The base of the real power in the area–Mach relation. -/
def areaMachBase (gamma M : ℝ) : ℝ :=
  (2 / (gamma + 1)) * (1 + (gamma - 1) / 2 * M ^ 2)

/-- The exponent of the real power in the area–Mach relation. -/
def areaMachExp (gamma : ℝ) : ℝ := (gamma + 1) / (2 * (gamma - 1))

lemma areaRatioFn_eq_div (gamma M : ℝ) :
    areaRatioFn gamma M = areaMachBase gamma M ^ areaMachExp gamma / M := by
  unfold areaRatioFn areaMachBase areaMachExp
  ring

lemma areaMachBase_pos {gamma : ℝ} (hγ : 1 < gamma) (M : ℝ) :
    0 < areaMachBase gamma M := by
  unfold areaMachBase
  have h1 : (0:ℝ) < 2 / (gamma + 1) := by positivity
  have h2 : (0:ℝ) < 1 + (gamma - 1) / 2 * M ^ 2 := by nlinarith [sq_nonneg M]
  exact mul_pos h1 h2

lemma areaMachBase_hasDerivAt (gamma x : ℝ) :
    HasDerivAt (fun M => areaMachBase gamma M)
      (2 / (gamma + 1) * ((gamma - 1) / 2 * ((2:ℝ) * x ^ 1))) x := by
  have h := (((hasDerivAt_pow 2 x).const_mul ((gamma - 1) / 2)).const_add
    (1:ℝ)).const_mul (2 / (gamma + 1))
  simpa [areaMachBase] using h

lemma areaRatioFn_hasDerivAt {gamma x : ℝ} (hγ : 1 < gamma) (hx : x ≠ 0) :
    HasDerivAt (areaRatioFn gamma)
      (areaMachBase gamma x ^ (areaMachExp gamma - 1) *
        (2 / (gamma + 1) * (x ^ 2 - 1)) / x ^ 2) x := by
  have hbase := areaMachBase_pos hγ x
  have hpow := (areaMachBase_hasDerivAt gamma x).rpow_const
    (p := areaMachExp gamma) (Or.inl hbase.ne')
  have hdiv := hpow.div (hasDerivAt_id x) hx
  have hfn : areaRatioFn gamma =
      fun M => areaMachBase gamma M ^ areaMachExp gamma / M := by
    funext M
    exact areaRatioFn_eq_div gamma M
  rw [hfn]
  convert hdiv using 1
  have hsplit : areaMachBase gamma x ^ areaMachExp gamma =
      areaMachBase gamma x ^ (areaMachExp gamma - 1) * areaMachBase gamma x := by
    rw [← Real.rpow_add_one hbase.ne' (areaMachExp gamma - 1)]
    ring_nf
  rw [hsplit]
  have hγ1 : gamma + 1 ≠ 0 := by linarith
  have hγ2 : gamma - 1 ≠ 0 := by intro h; linarith [sub_eq_zero.mp h]
  unfold areaMachBase areaMachExp
  field_simp
  ring

lemma areaRatioFn_deriv_pos {gamma x : ℝ} (hγ : 1 < gamma) (hx : 1 < x) :
    0 < areaMachBase gamma x ^ (areaMachExp gamma - 1) *
        (2 / (gamma + 1) * (x ^ 2 - 1)) / x ^ 2 := by
  have hbase := areaMachBase_pos hγ x
  have h1 : (0:ℝ) < areaMachBase gamma x ^ (areaMachExp gamma - 1) :=
    Real.rpow_pos_of_pos hbase _
  have h2 : (0:ℝ) < 2 / (gamma + 1) := by positivity
  have h3 : (0:ℝ) < x ^ 2 - 1 := by nlinarith
  have h4 : (0:ℝ) < x ^ 2 := by positivity
  positivity

lemma areaRatioFn_strictMonoOn {gamma : ℝ} (hγ : 1 < gamma) :
    StrictMonoOn (areaRatioFn gamma) (Ici 1) := by
  apply strictMonoOn_of_deriv_pos (convex_Ici 1)
  · intro x hx
    have hx0 : x ≠ 0 := by
      have : (1:ℝ) ≤ x := hx
      linarith
    exact (areaRatioFn_hasDerivAt hγ hx0).continuousAt.continuousWithinAt
  · intro x hx
    rw [interior_Ici] at hx
    have hx1 : 1 < x := hx
    have hx0 : x ≠ 0 := by linarith
    rw [(areaRatioFn_hasDerivAt hγ hx0).deriv]
    exact areaRatioFn_deriv_pos hγ hx1

lemma areaRatioFn_one {gamma : ℝ} (hγ : 1 < gamma) : areaRatioFn gamma 1 = 1 := by
  unfold areaRatioFn
  have hγ1 : gamma + 1 ≠ 0 := by linarith
  have h1 : (2 / (gamma + 1)) * (1 + (gamma - 1) / 2 * (1:ℝ) ^ 2) = 1 := by
    field_simp
    ring
  rw [h1, Real.one_rpow]
  norm_num

lemma areaRatioFn_gt_one {gamma M : ℝ} (hγ : 1 < gamma) (hM : 1 < M) :
    1 < areaRatioFn gamma M := by
  have h := areaRatioFn_strictMonoOn hγ (left_mem_Ici) (le_of_lt hM) hM
  rwa [areaRatioFn_one hγ] at h

lemma rpow_lt_rpow_of_neg_exp {a b c : ℝ} (ha : 0 < a) (hab : a < b)
    (hc : c < 0) : b ^ c < a ^ c := by
  have hb : 0 < b := ha.trans hab
  rw [show c = -(-c) by ring, Real.rpow_neg ha.le, Real.rpow_neg hb.le]
  exact inv_strictAnti₀ (Real.rpow_pos_of_pos ha _)
    (Real.rpow_lt_rpow ha.le hab (by linarith))

lemma temp_factor_pos {gamma M : ℝ} (hγ : 1 < gamma) : 0 < temp_factor gamma M := by
  unfold temp_factor
  nlinarith [sq_nonneg M]

lemma temp_factor_gt_one {gamma M : ℝ} (hγ : 1 < gamma) (hM : 0 < M) :
    1 < temp_factor gamma M := by
  unfold temp_factor
  have h := mul_pos (show (0:ℝ) < (gamma - 1) / 2 by linarith) (pow_pos hM 2)
  linarith

lemma compute_c_star_pos {gamma R_specific T_c : ℝ} (hγ : 1 < gamma)
    (hR : 0 < R_specific) (hT : 0 < T_c) :
    0 < compute_c_star gamma R_specific T_c := by
  unfold compute_c_star
  apply div_pos
  · exact Real.sqrt_pos.mpr (by positivity)
  · have h1 : (0:ℝ) < 2 / (gamma + 1) := by positivity
    have h2 : (0:ℝ) < (2 / (gamma + 1)) ^ (((gamma + 1) / (gamma - 1)) / 2) :=
      Real.rpow_pos_of_pos h1 _
    positivity

/-- At `gamma = 3` the area–Mach exponent is `1`, so the area-ratio function
has the closed form `(1 + M^2) / (2 * M)`; used to produce concrete roots. -/
lemma areaRatioFn_gamma_three (M : ℝ) (hM : M ≠ 0) :
    areaRatioFn 3 M = (1 + M ^ 2) / (2 * M) := by
  unfold areaRatioFn
  rw [show ((3:ℝ) + 1) / (2 * (3 - 1)) = 1 by norm_num, Real.rpow_one]
  field_simp
  ring

lemma isExitMachRoot_three_two : isExitMachRoot (5/4) 3 2 := by
  refine ⟨by norm_num, by norm_num, ?_⟩
  unfold area_ratio_eq
  rw [areaRatioFn_gamma_three 2 (by norm_num)]
  norm_num

lemma isExitMachRoot_three_three : isExitMachRoot (5/3) 3 3 := by
  refine ⟨by norm_num, by norm_num, ?_⟩
  unfold area_ratio_eq
  rw [areaRatioFn_gamma_three 3 (by norm_num)]
  norm_num

/-! ## Claims -/

/-- C4 counterexample: the claim says the gas-property computation raises a
domain error for every `alpha` outside `[0,1]`, but `compute_gas_properties`
contains no such guard: at `alpha = 2` (outside `[0,1]`) it returns normally
with an `ok` result. -/
theorem gas_property_domain_counterexample :
    (compute_gas_properties 2).isOk = true ∧ (2:ℝ) ∉ Icc (0:ℝ) 1 := by
  constructor
  · unfold compute_gas_properties
    rw [if_neg (by unfold n_total; norm_num)]
    rfl
  · simp only [mem_Icc, not_and_or]
    right
    norm_num

/-- C4 (amended): `compute_gas_properties` performs no `[0,1]` domain check
and never tests the total moles; the only failure is Python's
`ZeroDivisionError`, which occurs exactly when the total moles
`(4/3)+(2/3)*alpha` is zero, i.e. exactly at `alpha = -2`.  For every
`alpha` in `[0,1]` it returns normally with mean molecular weight
`M_bar > 0` and specific gas constant `R_s = R_UNIVERSAL / M_bar > 0`. -/
theorem gas_property_domain_behavior (alpha : ℝ) :
    ((compute_gas_properties alpha).isOk = false ↔ alpha = -2) ∧
    (0 ≤ alpha → alpha ≤ 1 →
      compute_gas_properties alpha =
        .ok (M_bar_g alpha / 1000, R_UNIVERSAL / (M_bar_g alpha / 1000)) ∧
      0 < M_bar_g alpha / 1000 ∧
      0 < R_UNIVERSAL / (M_bar_g alpha / 1000)) := by
  constructor
  · unfold compute_gas_properties
    by_cases h : n_total alpha = 0
    · rw [if_pos h]
      exact iff_of_true rfl ((n_total_eq_zero_iff alpha).mp h)
    · rw [if_neg h]
      constructor
      · intro hfalse
        exact absurd hfalse (by simp [Except.isOk, Except.toBool])
      · intro ha
        exact absurd ((n_total_eq_zero_iff alpha).mpr ha) h
  · intro h0 h1
    refine ⟨compute_gas_properties_ok h0 h1, ?_, gas_R_specific_pos h0 h1⟩
    have := M_bar_g_pos h0 h1
    linarith

/-- Witness for C4's amended theorem at `alpha = 1/2`. -/
theorem gas_property_domain_behavior_witness :
    compute_gas_properties (1/2) =
      .ok (M_bar_g (1/2) / 1000, R_UNIVERSAL / (M_bar_g (1/2) / 1000)) ∧
    0 < M_bar_g (1/2) / 1000 ∧
    0 < R_UNIVERSAL / (M_bar_g (1/2) / 1000) :=
  (gas_property_domain_behavior (1/2)).2 (by norm_num) (by norm_num)

/-- C9: the primary `compute_gas_properties` and the verification's
`compute_mean_molecular_weight` use identical species mole numbers and
identical molecular-weight constants, so the primary's mean molecular weight
in kg/mol times 1000 equals the verification's in g/mol exactly, and the two
derived specific gas constants (`R_UNIVERSAL / M_bar_kg` vs
`(R_universal / M_bar_g) * 1000`) coincide, for every `alpha`. -/
theorem gas_property_implementations_equal (alpha : ℝ) :
    (M_bar_g alpha / 1000) * 1000 = compute_mean_molecular_weight alpha ∧
    R_UNIVERSAL / (M_bar_g alpha / 1000) =
      ver_R_specific (compute_mean_molecular_weight alpha) := by
  have h : M_bar_g alpha = compute_mean_molecular_weight alpha := by
    unfold M_bar_g compute_mean_molecular_weight n_NH3 n_N2 n_H2 n_total
    rfl
  constructor
  · rw [h]
    ring
  · rw [← h]
    unfold ver_R_specific
    rw [div_div_eq_mul_div]
    ring

/-- C10: the Cross-Verification Harness derives its specific-heat ratio as
`gamma = 1.27 - 0.05 * alpha`, so at the shared design input `alpha = 0.5`
the secondary pipeline runs the physical model (exit-Mach solve and
characteristic velocity) with `gamma = 1.245`, while the primary design
script uses the fixed constant `GAMMA = 1.28`; the two values differ. -/
theorem secondary_gamma_differs_from_primary :
    compute_specific_heat_ratio ALPHA = 1.245 ∧ GAMMA = 1.28 ∧
    compute_specific_heat_ratio ALPHA ≠ GAMMA := by
  unfold compute_specific_heat_ratio ALPHA GAMMA
  norm_num

/-- C6 counterexample: the claim asserts that the Requirements Compliance
Evaluator reports `margin_percent = min((c-lo)/lo*100, (hi-c)/hi*100)` for
every band-type requirement, and in particular `4.76` (to two decimals) for
the band `[0.95, 1.05]` with computed value `1.0`.  The design script does
report `min(...) = 100/21 ≈ 4.76`, but VER-001's band check for the very
same requirement reports `margin_percent = (F - 1.0)/1.0*100 = 0` instead,
which is not `4.76` to two decimals. -/
theorem compliance_margin_counterexample :
    range_min_margin 0.95 1.05 1 = 100/21 ∧
    ver001_req001_margin 0.95 1.05 1 = some 0 ∧
    ¬ (|(0:ℝ) - 100/21| < 0.005) := by
  refine ⟨?_, ?_, by rw [abs_of_nonpos (by norm_num)]; norm_num⟩
  · unfold range_min_margin range_lower_margin range_upper_margin
    rw [min_def]
    norm_num
  · unfold ver001_req001_margin
    rw [if_pos (by norm_num)]
    norm_num

/-- C6 (amended): the design script's compliance evaluator reports, for a
band-type requirement `[lo, hi]` with `0 < lo ≤ hi`, the margin
`min((c-lo)/lo*100, (hi-c)/hi*100)` with verdict PASS iff `lo ≤ c ≤ hi`
(for the band `[0.95, 1.05]` and computed value `1.0` this is `4.76` to two
decimals, and PASS); for a minimum-type requirement with threshold `t > 0`
both scripts report `(c-t)/t*100` with PASS iff `c ≥ t`.  VER-001's band
check instead reports `(c - 1.0)/1.0*100` relative to the 1.0 N target when
the value lies in the band (and `None` otherwise), with the same PASS
verdict. -/
theorem compliance_margin_amended (lo hi t c : ℝ)
    (_hlo : 0 < lo) (_hlohi : lo ≤ hi) (_ht : 0 < t) :
    range_min_margin lo hi c = min ((c - lo)/lo*100) ((hi - c)/hi*100) ∧
    (range_pass lo hi c ↔ lo ≤ c ∧ c ≤ hi) ∧
    |range_min_margin 0.95 1.05 1 - 4.76| < 0.005 ∧
    range_pass 0.95 1.05 1 ∧
    minimum_margin t c = (c - t)/t*100 ∧
    (minimum_pass t c ↔ t ≤ c) ∧
    ver001_req002_margin t c = (c - t)/t*100 ∧
    (ver001_req001_pass lo hi c ↔ lo ≤ c ∧ c ≤ hi) ∧
    (lo ≤ c → c ≤ hi →
      ver001_req001_margin lo hi c = some ((c - 1.0)/1.0*100)) := by
  refine ⟨rfl, Iff.rfl, ?_, ?_, rfl, Iff.rfl, rfl, Iff.rfl, ?_⟩
  · unfold range_min_margin range_lower_margin range_upper_margin
    rw [min_def]
    norm_num
    rw [abs_of_nonneg (by norm_num)]
    norm_num
  · unfold range_pass
    norm_num
  · intro h1 h2
    unfold ver001_req001_margin
    rw [if_pos ⟨h1, h2⟩]

/-- Witness for C6's amended theorem at `lo = 0.95`, `hi = 1.05`, `t = 220`,
`c = 1`. -/
theorem compliance_margin_amended_witness :
    range_min_margin 0.95 1.05 1 =
      min ((1 - 0.95)/0.95*100) ((1.05 - 1)/1.05*100) ∧
    (range_pass 0.95 1.05 1 ↔ (0.95:ℝ) ≤ 1 ∧ (1:ℝ) ≤ 1.05) ∧
    |range_min_margin 0.95 1.05 1 - 4.76| < 0.005 ∧
    range_pass 0.95 1.05 1 ∧
    minimum_margin 220 1 = (1 - 220)/220*100 ∧
    (minimum_pass 220 1 ↔ (220:ℝ) ≤ 1) ∧
    ver001_req002_margin 220 1 = (1 - 220)/220*100 ∧
    (ver001_req001_pass 0.95 1.05 1 ↔ (0.95:ℝ) ≤ 1 ∧ (1:ℝ) ≤ 1.05) ∧
    ((0.95:ℝ) ≤ 1 → (1:ℝ) ≤ 1.05 →
      ver001_req001_margin 0.95 1.05 1 = some ((1 - 1.0)/1.0*100)) :=
  compliance_margin_amended 0.95 1.05 220 1
    (by norm_num) (by norm_num) (by norm_num)

/-- C7 counterexample: the claim says the Cross-Verification Harness
computes the signed `delta_pct = (secondary - primary)/primary * 100`, but
VER-001 computes `abs(secondary - primary)/primary*100`: at primary `1` and
secondary `9/10` the code's delta is `+10` while the claimed signed formula
gives `-10`. -/
theorem cross_verification_delta_counterexample :
    agent_delta 1 (9/10) = 10 ∧
    ((9/10 : ℝ) - 1)/1*100 = -10 ∧
    (10:ℝ) ≠ -10 := by
  refine ⟨?_, by norm_num, by norm_num⟩
  unfold agent_delta
  rw [abs_of_nonpos (by norm_num)]
  norm_num

/-- C7 (amended): VER-001's comparison covers exactly two scalar fields,
thrust and specific impulse; for each it computes the unsigned
`delta = |secondary - primary|/primary*100` and (for positive primary
values) flags it exactly when the claimed signed percentage exceeds 5 in
absolute value; a flagged disagreement is only reported (the record is
always built), and both the primary and secondary values are stored side by
side, unmodified, in the `comparison_with_agent2` record. -/
theorem cross_verification_comparison_amended (a2F a3F a2I a3I : ℝ)
    (hF : 0 < a2F) (hI : 0 < a2I) :
    (comparison_with_agent2 a2F a3F a2I a3I).thrust_delta_percent =
      |a3F - a2F| / a2F * 100 ∧
    (comparison_with_agent2 a2F a3F a2I a3I).Isp_delta_percent =
      |a3I - a2I| / a2I * 100 ∧
    (delta_flag (comparison_with_agent2 a2F a3F a2I a3I).thrust_delta_percent
      ↔ |(a3F - a2F)/a2F*100| > 5) ∧
    (delta_flag (comparison_with_agent2 a2F a3F a2I a3I).Isp_delta_percent
      ↔ |(a3I - a2I)/a2I*100| > 5) ∧
    (comparison_with_agent2 a2F a3F a2I a3I).agent2_thrust_N = a2F ∧
    (comparison_with_agent2 a2F a3F a2I a3I).agent3_thrust_N = a3F ∧
    (comparison_with_agent2 a2F a3F a2I a3I).agent2_Isp_s = a2I ∧
    (comparison_with_agent2 a2F a3F a2I a3I).agent3_Isp_s = a3I := by
  have habs : ∀ p s : ℝ, 0 < p → |(s - p)/p*100| = |s - p|/p*100 := by
    intro p s hp
    rw [abs_mul, abs_div, abs_of_pos hp]
    norm_num
  refine ⟨rfl, rfl, ?_, ?_, rfl, rfl, rfl, rfl⟩
  · rw [habs a2F a3F hF]
    unfold delta_flag comparison_with_agent2 agent_delta
    norm_num
  · rw [habs a2I a3I hI]
    unfold delta_flag comparison_with_agent2 agent_delta
    norm_num

/-- Witness for C7's amended theorem at primary thrust `1`, secondary
thrust `9/10`, primary Isp `1`, secondary Isp `1`. -/
theorem cross_verification_comparison_amended_witness :
    (comparison_with_agent2 1 (9/10) 1 1).thrust_delta_percent =
      |(9/10 : ℝ) - 1| / 1 * 100 ∧
    (comparison_with_agent2 1 (9/10) 1 1).Isp_delta_percent =
      |(1:ℝ) - 1| / 1 * 100 ∧
    (delta_flag (comparison_with_agent2 1 (9/10) 1 1).thrust_delta_percent
      ↔ |((9/10 : ℝ) - 1)/1*100| > 5) ∧
    (delta_flag (comparison_with_agent2 1 (9/10) 1 1).Isp_delta_percent
      ↔ |((1:ℝ) - 1)/1*100| > 5) ∧
    (comparison_with_agent2 1 (9/10) 1 1).agent2_thrust_N = 1 ∧
    (comparison_with_agent2 1 (9/10) 1 1).agent3_thrust_N = 9/10 ∧
    (comparison_with_agent2 1 (9/10) 1 1).agent2_Isp_s = 1 ∧
    (comparison_with_agent2 1 (9/10) 1 1).agent3_Isp_s = 1 :=
  cross_verification_comparison_amended 1 (9/10) 1 1
    (by norm_num) (by norm_num)

/-- C2: for every exit Mach number `M_e > 0` and valid chamber conditions,
the exit temperature and pressure returned by
`compute_isentropic_expansion` satisfy
`T_e * P_e^((1-gamma)/gamma) = T_c * P_c^((1-gamma)/gamma)` exactly
(hence in particular to within `1e-6` relative error). -/
theorem isentropic_consistency (M_e P_c gamma R_specific T_c : ℝ)
    (_hM : 0 < M_e) (hγ : 1 < gamma) (hP : 0 < P_c) (hT : 0 < T_c)
    (_hR : 0 < R_specific) :
    (compute_isentropic_expansion M_e P_c gamma R_specific T_c).2.1 *
      (compute_isentropic_expansion M_e P_c gamma R_specific T_c).1
        ^ ((1 - gamma) / gamma) =
      T_c * P_c ^ ((1 - gamma) / gamma) ∧
    |(compute_isentropic_expansion M_e P_c gamma R_specific T_c).2.1 *
      (compute_isentropic_expansion M_e P_c gamma R_specific T_c).1
        ^ ((1 - gamma) / gamma) -
      T_c * P_c ^ ((1 - gamma) / gamma)| ≤
      1e-6 * (T_c * P_c ^ ((1 - gamma) / gamma)) := by
  have htf : 0 < temp_factor gamma M_e := temp_factor_pos hγ
  have hγ0 : gamma ≠ 0 := by linarith
  have hγ1 : gamma - 1 ≠ 0 := by intro h; linarith [sub_eq_zero.mp h]
  have hmul : (P_c * temp_factor gamma M_e ^ (-gamma / (gamma - 1)))
        ^ ((1 - gamma) / gamma)
      = P_c ^ ((1 - gamma) / gamma) *
        (temp_factor gamma M_e ^ (-gamma / (gamma - 1)))
          ^ ((1 - gamma) / gamma) :=
    Real.mul_rpow hP.le (Real.rpow_pos_of_pos htf _).le
  have hpq : (temp_factor gamma M_e ^ (-gamma / (gamma - 1)))
        ^ ((1 - gamma) / gamma) = temp_factor gamma M_e := by
    rw [← Real.rpow_mul htf.le]
    rw [show -gamma / (gamma - 1) * ((1 - gamma) / gamma) = 1 by
      field_simp; ring]
    exact Real.rpow_one _
  simp only [compute_isentropic_expansion]
  have heq : T_c / temp_factor gamma M_e *
      (P_c * temp_factor gamma M_e ^ (-gamma / (gamma - 1)))
        ^ ((1 - gamma) / gamma) =
      T_c * P_c ^ ((1 - gamma) / gamma) := by
    rw [hmul, hpq]
    field_simp
    ring
  refine ⟨heq, ?_⟩
  rw [heq, sub_self, abs_zero]
  have hpos : 0 < T_c * P_c ^ ((1 - gamma) / gamma) :=
    mul_pos hT (Real.rpow_pos_of_pos hP _)
  rw [show (1e-6 : ℝ) = 1 / 1000000 by norm_num]
  positivity

/-- Witness for C2 at `M_e = 1`, `P_c = T_c = R_s = 1`, `gamma = 2`. -/
theorem isentropic_consistency_witness :
    (compute_isentropic_expansion 1 1 2 1 1).2.1 *
      (compute_isentropic_expansion 1 1 2 1 1).1 ^ (((1:ℝ) - 2) / 2) =
      1 * (1:ℝ) ^ (((1:ℝ) - 2) / 2) ∧
    |(compute_isentropic_expansion 1 1 2 1 1).2.1 *
      (compute_isentropic_expansion 1 1 2 1 1).1 ^ (((1:ℝ) - 2) / 2) -
      1 * (1:ℝ) ^ (((1:ℝ) - 2) / 2)| ≤
      1e-6 * (1 * (1:ℝ) ^ (((1:ℝ) - 2) / 2)) :=
  isentropic_consistency 1 1 2 1 1 (by norm_num) (by norm_num) (by norm_num)
    (by norm_num) (by norm_num)

/-- C3: for every `gamma > 1` and area ratio `eps > 1` for which the
exit-Mach solve succeeds (i.e. `brentq` returns a root in its bracket), the
Nozzle Solution satisfies `M_e > 1`, `0 < P_e < P_c` and `0 < T_e < T_c`. -/
theorem nozzle_solution_bounds (gamma eps P_c T_c R_specific M_e : ℝ)
    (hγ : 1 < gamma) (_heps : 1 < eps) (hP : 0 < P_c) (hT : 0 < T_c)
    (hroot : isExitMachRoot eps gamma M_e) :
    1 < M_e ∧
    0 < (compute_isentropic_expansion M_e P_c gamma R_specific T_c).1 ∧
    (compute_isentropic_expansion M_e P_c gamma R_specific T_c).1 < P_c ∧
    0 < (compute_isentropic_expansion M_e P_c gamma R_specific T_c).2.1 ∧
    (compute_isentropic_expansion M_e P_c gamma R_specific T_c).2.1 < T_c := by
  obtain ⟨hlo, hhi, hres⟩ := hroot
  have hM : 1 < M_e := lt_of_lt_of_le (by norm_num) hlo
  have htf1 : 1 < temp_factor gamma M_e :=
    temp_factor_gt_one hγ (by linarith)
  have htf0 : 0 < temp_factor gamma M_e := by linarith
  have hexp : -gamma / (gamma - 1) < 0 :=
    div_neg_of_neg_of_pos (by linarith) (by linarith)
  have hfrac : temp_factor gamma M_e ^ (-gamma / (gamma - 1)) < 1 :=
    Real.rpow_lt_one_of_one_lt_of_neg htf1 hexp
  have hfrac0 : 0 < temp_factor gamma M_e ^ (-gamma / (gamma - 1)) :=
    Real.rpow_pos_of_pos htf0 _
  simp only [compute_isentropic_expansion]
  refine ⟨hM, mul_pos hP hfrac0, ?_, div_pos hT htf0, div_lt_self hT htf1⟩
  calc P_c * temp_factor gamma M_e ^ (-gamma / (gamma - 1)) < P_c * 1 :=
        mul_lt_mul_of_pos_left hfrac hP
    _ = P_c := mul_one _

/-- Witness for C3 at `gamma = 3`, `eps = 5/4`, `M_e = 2`,
`P_c = T_c = R_s = 1`. -/
theorem nozzle_solution_bounds_witness :
    1 < (2:ℝ) ∧
    0 < (compute_isentropic_expansion 2 1 3 1 1).1 ∧
    (compute_isentropic_expansion 2 1 3 1 1).1 < 1 ∧
    0 < (compute_isentropic_expansion 2 1 3 1 1).2.1 ∧
    (compute_isentropic_expansion 2 1 3 1 1).2.1 < 1 :=
  nozzle_solution_bounds 3 (5/4) 1 1 1 2 (by norm_num) (by norm_num)
    (by norm_num) (by norm_num) isExitMachRoot_three_two

/-- C5: for every `gamma > 1`, both Exit-Mach solvers raise (model: the
residual has the same sign at the two bracket endpoints, which makes
`brentq` raise `ValueError`) whenever the requested area ratio is `≤ 1` —
and by definition of the model whenever there is no sign change over the
bracket; and whenever `brentq` does return, the returned root lies in the
bracket `[1.01, 10]` (design) resp. `[1.01, 50]` (verification) and hence
satisfies `M > 1`: no subsonic or out-of-bracket root is ever returned. -/
theorem exit_mach_solver_error_behavior (gamma ar : ℝ) (hγ : 1 < gamma) :
    (ar ≤ 1 → exit_mach_raises ar gamma ∧ solve_exit_mach_raises ar gamma) ∧
    (∀ M, isExitMachRoot ar gamma M → 1 < M) ∧
    (∀ M, isExitMachRootVer ar gamma M → 1 < M) := by
  have h101 : 1 < areaRatioFn gamma 1.01 := areaRatioFn_gt_one hγ (by norm_num)
  have h10 : 1 < areaRatioFn gamma 10 := areaRatioFn_gt_one hγ (by norm_num)
  have h50 : 1 < areaRatioFn gamma 50 := areaRatioFn_gt_one hγ (by norm_num)
  refine ⟨?_, ?_, ?_⟩
  · intro har
    constructor
    · unfold exit_mach_raises area_ratio_eq
      exact mul_pos (by linarith) (by linarith)
    · unfold solve_exit_mach_raises area_ratio_residual
      rw [if_neg (by norm_num), if_neg (by norm_num)]
      exact mul_pos (by linarith) (by linarith)
  · rintro M ⟨hlo, -, -⟩
    exact lt_of_lt_of_le (by norm_num) hlo
  · rintro M ⟨hlo, -, -⟩
    exact lt_of_lt_of_le (by norm_num) hlo

/-- Witness for C5: at `gamma = 3` the solvers raise for area ratio `1`, and
the design-bracket root `M = 2` of area ratio `5/4` is supersonic. -/
theorem exit_mach_solver_error_behavior_witness :
    (exit_mach_raises 1 3 ∧ solve_exit_mach_raises 1 3) ∧ (1:ℝ) < 2 :=
  ⟨(exit_mach_solver_error_behavior 3 1 (by norm_num)).1 (by norm_num),
   (exit_mach_solver_error_behavior 3 (5/4) (by norm_num)).2.1 2
     isExitMachRoot_three_two⟩

/-- C8: at fixed `gamma > 1`, for two area ratios `1 < eps1 < eps2` whose
supersonic roots lie in the solver's bracket, the solved exit Mach number
strictly increases and the exit pressure computed from it (at fixed `P_c`)
strictly decreases. -/
theorem mach_and_pressure_monotone_in_area_ratio
    (gamma eps1 eps2 M1 M2 P_c T_c R_specific : ℝ)
    (hγ : 1 < gamma) (hP : 0 < P_c) (_heps1 : 1 < eps1) (heps12 : eps1 < eps2)
    (h1 : isExitMachRoot eps1 gamma M1) (h2 : isExitMachRoot eps2 gamma M2) :
    M1 < M2 ∧
    (compute_isentropic_expansion M2 P_c gamma R_specific T_c).1 <
      (compute_isentropic_expansion M1 P_c gamma R_specific T_c).1 := by
  obtain ⟨hlo1, hhi1, hres1⟩ := h1
  obtain ⟨hlo2, hhi2, hres2⟩ := h2
  have hf1 : areaRatioFn gamma M1 = eps1 := by
    unfold area_ratio_eq at hres1
    linarith
  have hf2 : areaRatioFn gamma M2 = eps2 := by
    unfold area_ratio_eq at hres2
    linarith
  have hm1 : M1 ∈ Ici (1:ℝ) := le_trans (by norm_num) hlo1
  have hm2 : M2 ∈ Ici (1:ℝ) := le_trans (by norm_num) hlo2
  have hMM : M1 < M2 := by
    by_contra hcon
    push_neg at hcon
    rcases eq_or_lt_of_le hcon with heq | hlt
    · rw [heq] at hf2
      rw [hf1] at hf2
      linarith
    · have h := areaRatioFn_strictMonoOn hγ hm2 hm1 hlt
      rw [hf1, hf2] at h
      linarith
  refine ⟨hMM, ?_⟩
  simp only [compute_isentropic_expansion]
  have hM10 : 0 < M1 := lt_of_lt_of_le (by norm_num) hlo1
  have hsq : M1 ^ 2 < M2 ^ 2 := by nlinarith
  have hc2 : 0 < (gamma - 1) / 2 := by linarith
  have htf12 : temp_factor gamma M1 < temp_factor gamma M2 := by
    unfold temp_factor
    nlinarith [mul_lt_mul_of_pos_left hsq hc2]
  have htf1pos : 0 < temp_factor gamma M1 := temp_factor_pos hγ
  have hexp : -gamma / (gamma - 1) < 0 :=
    div_neg_of_neg_of_pos (by linarith) (by linarith)
  exact mul_lt_mul_of_pos_left
    (rpow_lt_rpow_of_neg_exp htf1pos htf12 hexp) hP

/-- Witness for C8 at `gamma = 3`, `eps1 = 5/4` (root `M1 = 2`),
`eps2 = 5/3` (root `M2 = 3`), `P_c = T_c = R_s = 1`. -/
theorem mach_and_pressure_monotone_witness :
    (2:ℝ) < 3 ∧
    (compute_isentropic_expansion 3 1 3 1 1).1 <
      (compute_isentropic_expansion 2 1 3 1 1).1 :=
  mach_and_pressure_monotone_in_area_ratio 3 (5/4) (5/3) 2 3 1 1 1
    (by norm_num) (by norm_num) (by norm_num) (by norm_num)
    isExitMachRoot_three_two isExitMachRoot_three_three

/-- C1: for every valid set of Design Constants (`gamma > 1`,
`alpha ∈ [0,1]`, `T_c > 0`, `P_c > 0`, `eps > 1`, `eta ∈ (0,1]`,
`F_target > 0`) for which the exit-Mach solve succeeds, the thrust
recomputed as `mdot * V_e + P_e * A_e` — with
`A_t = F_target / (P_c * V_e / c_star + P_e * eps)`,
`mdot = P_c * A_t / c_star`, `A_e = eps * A_t` and `V_e` the
efficiency-derated exit velocity — equals `F_target` exactly (hence in
particular to within `1e-6` relative error). -/
theorem thrust_self_consistency
    (gamma alpha T_c P_c eps eta F_target M_e Mb Rs : ℝ)
    (hγ : 1 < gamma) (hα0 : 0 ≤ alpha) (hα1 : alpha ≤ 1)
    (hT : 0 < T_c) (hP : 0 < P_c) (heps : 1 < eps)
    (heta0 : 0 < eta) (_heta1 : eta ≤ 1) (hF : 0 < F_target)
    (hgas : compute_gas_properties alpha = .ok (Mb, Rs))
    (hroot : isExitMachRoot eps gamma M_e) :
    recomputed_thrust gamma Rs T_c P_c eps eta F_target M_e = F_target ∧
    |recomputed_thrust gamma Rs T_c P_c eps eta F_target M_e - F_target| ≤
      1e-6 * F_target := by
  rw [compute_gas_properties_ok hα0 hα1] at hgas
  simp only [Except.ok.injEq, Prod.mk.injEq] at hgas
  obtain ⟨-, hRsEq⟩ := hgas
  have hRs : 0 < Rs := hRsEq ▸ gas_R_specific_pos hα0 hα1
  have hM0 : 0 < M_e := lt_of_lt_of_le (by norm_num) hroot.1
  have hγ0 : 0 < gamma := by linarith
  have htf : 0 < temp_factor gamma M_e := temp_factor_pos hγ
  have hcs : 0 < compute_c_star gamma Rs T_c := compute_c_star_pos hγ hRs hT
  have hPe : 0 < P_c * temp_factor gamma M_e ^ (-gamma / (gamma - 1)) :=
    mul_pos hP (Real.rpow_pos_of_pos htf _)
  have hVe : 0 < M_e * Real.sqrt (gamma * Rs * (T_c / temp_factor gamma M_e)) :=
    mul_pos hM0 (Real.sqrt_pos.mpr
      (mul_pos (mul_pos hγ0 hRs) (div_pos hT htf)))
  have heq : recomputed_thrust gamma Rs T_c P_c eps eta F_target M_e =
      F_target := by
    unfold recomputed_thrust
    simp only [compute_isentropic_expansion]
    set cs := compute_c_star gamma Rs T_c with hcsdef
    set Pe := P_c * temp_factor gamma M_e ^ (-gamma / (gamma - 1)) with hPedef
    set Ve := M_e * Real.sqrt (gamma * Rs * (T_c / temp_factor gamma M_e))
      with hVedef
    have hD : 0 < P_c * (Ve * eta) / cs + Pe * eps := by
      have hD1 : 0 < P_c * (Ve * eta) / cs :=
        div_pos (mul_pos hP (mul_pos hVe heta0)) hcs
      have hD2 : 0 < Pe * eps := mul_pos hPe (by linarith)
      linarith
    field_simp
    ring
  refine ⟨heq, ?_⟩
  rw [heq, sub_self, abs_zero]
  rw [show (1e-6 : ℝ) = 1 / 1000000 by norm_num]
  positivity

/-- Witness for C1 at `gamma = 3`, `alpha = 1/2`, `T_c = P_c = 1`,
`eps = 5/4` (root `M_e = 2`), `eta = 1`, `F_target = 1`, with the Gas State
produced by `compute_gas_properties (1/2)`. -/
theorem thrust_self_consistency_witness :
    recomputed_thrust 3 (R_UNIVERSAL / (M_bar_g (1/2) / 1000)) 1 1 (5/4) 1 1 2
      = 1 ∧
    |recomputed_thrust 3 (R_UNIVERSAL / (M_bar_g (1/2) / 1000)) 1 1 (5/4) 1 1 2
      - 1| ≤ 1e-6 * 1 :=
  thrust_self_consistency 3 (1/2) 1 1 (5/4) 1 1 2
    (M_bar_g (1/2) / 1000) (R_UNIVERSAL / (M_bar_g (1/2) / 1000))
    (by norm_num) (by norm_num) (by norm_num) (by norm_num) (by norm_num)
    (by norm_num) (by norm_num) (by norm_num) (by norm_num)
    (compute_gas_properties_ok (by norm_num) (by norm_num))
    isExitMachRoot_three_two

end

end Gastown
